import Mathlib

/-!
Verification of the mkjt2/ci-system control plane against its specification.

This file shallowly embeds the parts of the Python source that the claims
touch:

* `ci_persistence/sqlite_repository.py` — the jobs table and its primitive
  operations (`create_job`, `get_job`, `update_job_status`, `complete_job`),
  with Python `datetime.isoformat` / `datetime.fromisoformat` serialization
  modelled concretely on a structured timestamp type;
* `ci_controller/controller.py` — the per-job reconciliation step
  (`_reconcile_job`, `_start_job`, `_mark_job_failed`, `_finalize_job`),
  with filesystem and container-runtime effects supplied by an environment
  record;
* `ci_controller/container_manager.py` — container naming and job-id
  extraction (`_get_container_name`, `_extract_job_id`,
  `list_ci_containers`), and the hard-coded image tag;
* `ci_controller/__main__.py` — configuration resolution
  (`get_python_base_image`) and the keyword arguments `run_controller`
  passes to `ContainerManager`;
* `ci_server/app.py` — the `/jobs/{id}` and `/jobs/{id}/stream` handlers'
  404/403 gate and the SSE generator `stream_job_events`;
* `ci_server/auth.py` — `get_current_user_with_repo` authentication.

Strings from the Python source are kept verbatim.  Machine effects that the
claims do not touch (subprocess invocation, temp directories, sleeping) are
represented by oracles in environment records; database rows are lists.
-/

namespace CI

/-! ## Timestamps: Python `datetime` and ISO-8601 serialization

`datetime.isoformat()` prints `YYYY-MM-DDTHH:MM:SS` and appends
`.ffffff` exactly when `microsecond != 0`; `datetime.fromisoformat`
parses that back.  The repository stores timestamps as TEXT produced by
`isoformat` and re-parses them with `fromisoformat`. -/

/-- A Python `datetime` value (naive, as used throughout the source). -/
structure DT where
  year : Nat
  month : Nat
  day : Nat
  hour : Nat
  minute : Nat
  second : Nat
  microsecond : Nat
deriving DecidableEq, Repr

/-- Range constraints enforced by the Python `datetime` constructor. -/
def DT.Valid (d : DT) : Prop :=
  1 ≤ d.year ∧ d.year ≤ 9999 ∧ 1 ≤ d.month ∧ d.month ≤ 12 ∧
  1 ≤ d.day ∧ d.day ≤ 31 ∧ d.hour ≤ 23 ∧ d.minute ≤ 59 ∧
  d.second ≤ 59 ∧ d.microsecond ≤ 999999

instance (d : DT) : Decidable d.Valid := by unfold DT.Valid; infer_instance

/-- ASCII digit character for a single decimal digit. -/
def digitChar (n : Nat) : Char := Char.ofNat (48 + n)

/-- Zero-padded 2-digit decimal rendering. -/
def pad2 (n : Nat) : List Char := [digitChar (n / 10), digitChar (n % 10)]

/-- Zero-padded 4-digit decimal rendering. -/
def pad4 (n : Nat) : List Char :=
  [digitChar (n / 1000), digitChar (n / 100 % 10), digitChar (n / 10 % 10),
   digitChar (n % 10)]

/-- Zero-padded 6-digit decimal rendering. -/
def pad6 (n : Nat) : List Char :=
  [digitChar (n / 100000), digitChar (n / 10000 % 10), digitChar (n / 1000 % 10),
   digitChar (n / 100 % 10), digitChar (n / 10 % 10), digitChar (n % 10)]

/-- Character sequence of `datetime.isoformat()`. -/
def isoChars (d : DT) : List Char :=
  pad4 d.year ++ '-' :: pad2 d.month ++ '-' :: pad2 d.day ++
  'T' :: pad2 d.hour ++ ':' :: pad2 d.minute ++ ':' :: pad2 d.second ++
  (if d.microsecond = 0 then [] else '.' :: pad6 d.microsecond)

/-- Embeds `datetime.isoformat()`. -/
def isoformat (d : DT) : String := ⟨isoChars d⟩

/-- Numeric value of a digit character. -/
def digitVal (c : Char) : Nat := c.toNat - 48

/-- Embeds `datetime.fromisoformat` on the shapes `isoformat` can produce:
requires the fixed-width digit groups and separator characters, rejecting
anything else (Python raises `ValueError`, modelled as `none`). -/
def parseIso (cs : List Char) : Option DT :=
  match cs with
  | y1 :: y2 :: y3 :: y4 :: c1 :: m1 :: m2 :: c2 :: a1 :: a2 ::
    c3 :: h1 :: h2 :: c4 :: n1 :: n2 :: c5 :: s1 :: s2 :: rest =>
    if c1 = '-' ∧ c2 = '-' ∧ c3 = 'T' ∧ c4 = ':' ∧ c5 = ':' ∧
       ([y1, y2, y3, y4, m1, m2, a1, a2, h1, h2, n1, n2, s1, s2].all Char.isDigit) then
      let base : DT :=
        { year := ((digitVal y1 * 10 + digitVal y2) * 10 + digitVal y3) * 10 + digitVal y4
          month := digitVal m1 * 10 + digitVal m2
          day := digitVal a1 * 10 + digitVal a2
          hour := digitVal h1 * 10 + digitVal h2
          minute := digitVal n1 * 10 + digitVal n2
          second := digitVal s1 * 10 + digitVal s2
          microsecond := 0 }
      match rest with
      | [] => some base
      | c6 :: u1 :: u2 :: u3 :: u4 :: u5 :: u6 :: [] =>
        if c6 = '.' ∧ ([u1, u2, u3, u4, u5, u6].all Char.isDigit) then
          some { base with
                 microsecond :=
                   ((((digitVal u1 * 10 + digitVal u2) * 10 + digitVal u3) * 10 +
                     digitVal u4) * 10 + digitVal u5) * 10 + digitVal u6 }
        else none
      | _ => none
    else none
  | _ => none

/-- Embeds `datetime.fromisoformat`. -/
def fromisoformat (s : String) : Option DT := parseIso s.data

theorem digitChar_isDigit : ∀ k, k < 10 → (digitChar k).isDigit = true := by decide

theorem digitVal_digitChar : ∀ k, k < 10 → digitVal (digitChar k) = k := by decide

theorem parse_iso_roundtrip (d : DT) (h : d.Valid) :
    fromisoformat (isoformat d) = some d := by
  obtain ⟨y, mo, da, ho, mi, s, u⟩ := d
  obtain ⟨_, hy, _, hm, _, ha, hh, hn, hs, hu⟩ := h
  simp only at hy hm ha hh hn hs hu
  have b1 : y / 1000 < 10 := by omega
  have b2 : y / 100 % 10 < 10 := by omega
  have b3 : y / 10 % 10 < 10 := by omega
  have b4 : y % 10 < 10 := by omega
  have b5 : mo / 10 < 10 := by omega
  have b6 : mo % 10 < 10 := by omega
  have b7 : da / 10 < 10 := by omega
  have b8 : da % 10 < 10 := by omega
  have b9 : ho / 10 < 10 := by omega
  have b10 : ho % 10 < 10 := by omega
  have b11 : mi / 10 < 10 := by omega
  have b12 : mi % 10 < 10 := by omega
  have b13 : s / 10 < 10 := by omega
  have b14 : s % 10 < 10 := by omega
  have b15 : u / 100000 < 10 := by omega
  have b16 : u / 10000 % 10 < 10 := by omega
  have b17 : u / 1000 % 10 < 10 := by omega
  have b18 : u / 100 % 10 < 10 := by omega
  have b19 : u / 10 % 10 < 10 := by omega
  have b20 : u % 10 < 10 := by omega
  show parseIso (isoChars _) = _
  by_cases hz : u = 0 <;>
    simp only [isoChars, pad4, pad2, pad6, hz, ite_true, ite_false, if_pos, if_neg,
      List.cons_append, List.nil_append, List.append_nil, parseIso, List.all_cons,
      List.all_nil, Bool.and_true, Bool.and_eq_true, and_true, true_and,
      digitChar_isDigit _ b1, digitChar_isDigit _ b2, digitChar_isDigit _ b3,
      digitChar_isDigit _ b4, digitChar_isDigit _ b5, digitChar_isDigit _ b6,
      digitChar_isDigit _ b7, digitChar_isDigit _ b8, digitChar_isDigit _ b9,
      digitChar_isDigit _ b10, digitChar_isDigit _ b11, digitChar_isDigit _ b12,
      digitChar_isDigit _ b13, digitChar_isDigit _ b14, digitChar_isDigit _ b15,
      digitChar_isDigit _ b16, digitChar_isDigit _ b17, digitChar_isDigit _ b18,
      digitChar_isDigit _ b19, digitChar_isDigit _ b20,
      digitVal_digitChar _ b1, digitVal_digitChar _ b2, digitVal_digitChar _ b3,
      digitVal_digitChar _ b4, digitVal_digitChar _ b5, digitVal_digitChar _ b6,
      digitVal_digitChar _ b7, digitVal_digitChar _ b8, digitVal_digitChar _ b9,
      digitVal_digitChar _ b10, digitVal_digitChar _ b11, digitVal_digitChar _ b12,
      digitVal_digitChar _ b13, digitVal_digitChar _ b14, digitVal_digitChar _ b15,
      digitVal_digitChar _ b16, digitVal_digitChar _ b17, digitVal_digitChar _ b18,
      digitVal_digitChar _ b19, digitVal_digitChar _ b20,
      Option.some.injEq, DT.mk.injEq] <;>
    omega

/-! ## Data model

`ci_common/models.py` dataclasses and the SQLite rows that
`ci_persistence/sqlite_repository.py` stores them in.  A row keeps each
column exactly as SQLite does: timestamps as TEXT (`isoformat` output),
booleans as INTEGER `0`/`1`, missing values as NULL (`Option.none`). -/

/-- Embeds `ci_common.models.JobEvent` (dataclass). -/
structure JobEvent where
  type : String
  data : Option String := none
  success : Option Bool := none
  timestamp : Option DT := none
deriving DecidableEq, Repr

/-- Embeds `ci_common.models.Job` (dataclass). -/
structure Job where
  id : String
  status : String
  events : List JobEvent := []
  success : Option Bool := none
  start_time : Option DT := none
  end_time : Option DT := none
  container_id : Option String := none
  zip_file_path : Option String := none
  user_id : Option String := none
deriving DecidableEq, Repr

/-- A row of the `jobs` table, columns as stored by SQLite. -/
structure JobRow where
  id : String
  status : String
  success : Option Int := none
  start_time : Option String := none
  end_time : Option String := none
  container_id : Option String := none
  zip_file_path : Option String := none
  user_id : Option String := none
deriving DecidableEq, Repr

/-- A row of the `events` table (the AUTOINCREMENT key is the list position,
so `ORDER BY id` is list order). -/
structure EventRow where
  job_id : String
  type : String
  data : Option String := none
  success : Option Int := none
  timestamp : String
deriving DecidableEq, Repr

/-- The persistent store: the `jobs` and `events` tables.
(`users` and `api_keys` live in `AuthDB` below.) -/
structure DB where
  jobs : List JobRow := []
  events : List EventRow := []
deriving DecidableEq, Repr

/-- How Python's sqlite3 binds a `bool | None` parameter: `True`/`False`
are `int` subclasses and are stored as INTEGER `1`/`0`. -/
def encodeBool : Option Bool → Option Int
  | none => none
  | some b => some (if b then 1 else 0)

/-- Embeds `bool(success) if success is not None else None` when reading a row. -/
def decodeBool : Option Int → Option Bool
  | none => none
  | some i => some (i ≠ 0)

/-! ## Repository operations (`ci_persistence/sqlite_repository.py`)

Each method is one SQL statement plus a commit; the embedding is the
corresponding pure transformation of `DB`.  Statements that Python would
raise on (`INSERT` primary-key conflict, `fromisoformat` on a malformed
TEXT cell) return `Except`. -/

/-- Embeds `SQLiteJobRepository.create_job`: `INSERT INTO jobs ...`.  A duplicate
primary key makes SQLite raise `IntegrityError`, modelled as `.error ()`. -/
def createJob (db : DB) (job : Job) : Except Unit DB :=
  if db.jobs.any (fun r => r.id = job.id) then .error ()
  else .ok { db with
             jobs := db.jobs ++
               [{ id := job.id
                  status := job.status
                  success := encodeBool job.success
                  start_time := job.start_time.map isoformat
                  end_time := job.end_time.map isoformat
                  container_id := job.container_id
                  zip_file_path := job.zip_file_path
                  user_id := job.user_id }] }

/-- Decode one TEXT timestamp cell; a malformed cell makes Python's
`datetime.fromisoformat` raise `ValueError`, modelled as `.error ()`. -/
def decodeTime : Option String → Except Unit (Option DT)
  | none => .ok none
  | some s =>
    match fromisoformat s with
    | some d => .ok (some d)
    | none => .error ()

/-- Embeds `SQLiteJobRepository.get_events`: rows of `events` with this `job_id`,
in insertion (`ORDER BY id`) order, decoded to `JobEvent`s. -/
def getEvents (db : DB) (job_id : String) : Except Unit (List JobEvent) :=
  (db.events.filter (fun e => e.job_id = job_id)).mapM fun e => do
    let t ← decodeTime (some e.timestamp)
    pure { type := e.type, data := e.data, success := decodeBool e.success,
           timestamp := t }

/-- Embeds `SQLiteJobRepository.get_job`: `SELECT ... WHERE id = ?` (first match),
decode the row, attach the job's events; the first decoding failure
propagates (the Python raises out of `get_job`). -/
def getJob (db : DB) (job_id : String) : Except Unit (Option Job) :=
  match db.jobs.find? (fun r => r.id = job_id) with
  | none => .ok none
  | some r =>
    match decodeTime r.start_time with
    | .error e => .error e
    | .ok st =>
      match decodeTime r.end_time with
      | .error e => .error e
      | .ok et =>
        match getEvents db r.id with
        | .error e => .error e
        | .ok evs =>
          .ok (some { id := r.id, status := r.status, events := evs,
                      success := decodeBool r.success, start_time := st,
                      end_time := et, container_id := r.container_id,
                      zip_file_path := r.zip_file_path, user_id := r.user_id })

/-- Embeds `SQLiteJobRepository.update_job_status`: dynamic
`UPDATE jobs SET status = ?[, start_time = ?][, container_id = ?] WHERE id = ?`.
A `None` argument leaves its column out of the SET list.  An id with no
row is a silent no-op (`UPDATE` matches nothing, no error). -/
def updateJobStatus (db : DB) (job_id : String) (status : String)
    (start_time : Option DT) (container_id : Option String) : DB :=
  { db with
    jobs := db.jobs.map fun r =>
      if r.id = job_id then
        { r with
          status := status
          start_time := match start_time with
            | none => r.start_time
            | some t => some (isoformat t)
          container_id := match container_id with
            | none => r.container_id
            | some c => some c }
      else r }

/-- Embeds `SQLiteJobRepository.complete_job`:
`UPDATE jobs SET status = ?, success = ?, end_time = ? WHERE id = ?` with
parameters `("completed", 1 if success else 0, end_time.isoformat(), job_id)`.
Note the status literal is always `"completed"`. -/
def completeJob (db : DB) (job_id : String) (success : Bool) (end_time : DT) : DB :=
  { db with
    jobs := db.jobs.map fun r =>
      if r.id = job_id then
        { r with
          status := "completed"
          success := some (if success then 1 else 0)
          end_time := some (isoformat end_time) }
      else r }

/-! ## Controller (`ci_controller/controller.py`)

The per-job reconciliation step.  The controller's effects on the world
outside the database (docker create/start/inspect, the filesystem test on
the stashed archive) are answered by an `Env` oracle; the embedding
returns the database state after the step.  Runtime-only actions
(`cleanup_container`, temp-directory removal) do not touch the database
and so leave the returned state unchanged. -/

/-- Embeds `ci_controller.container_manager.ContainerInfo` (dataclass). -/
structure ContainerInfo where
  container_id : String
  name : String
  status : String
  exit_code : Option Int := none
  started_at : Option DT := none
  finished_at : Option DT := none
deriving DecidableEq, Repr

/-- Oracle for the controller's non-database effects during one step:
`Path.exists` / `Path.is_file` on the archive, `get_container_info`,
and whether `create_container` / `start_container` succeed.
`createResult = none` models `create_container` raising;
`startOk = false` models `start_container` raising. -/
structure Env where
  fileExists : String → Bool
  isFile : String → Bool
  inspect : String → Option ContainerInfo
  createResult : Option String
  startOk : Bool

/-- Python truthiness of an optional string (`if job.zip_file_path:`):
`None` and `""` are falsy. -/
def truthyStr : Option String → Bool
  | none => false
  | some s => s ≠ ""

/-- Embeds `JobController._mark_job_failed`: `update_job_status(job_id, "failed")`
followed by `complete_job(job_id, success=False, end_time=utcnow())`.
The failure reason is logged only, never persisted. -/
def markJobFailed (db : DB) (job_id : String) (now : DT) : DB :=
  completeJob (updateJobStatus db job_id "failed" none none) job_id false now

/-- Embeds `JobController._finalize_job`: `success = container.exit_code == 0`
(Python `None == 0` is `False`), then `complete_job`. -/
def finalizeJob (db : DB) (job_id : String) (c : ContainerInfo) (now : DT) : DB :=
  completeJob db job_id (decide (c.exit_code = some 0)) now

/-- Embeds `JobController._start_job`.  Re-reads the job, validates the archive
path, reuses an existing container when one is inspectable, otherwise
creates and starts a fresh one; any exception inside the `try` block
(including a raising `get_job`, `create_container` or `start_container`)
lands in `_mark_job_failed`. -/
def startJob (env : Env) (db : DB) (job_id : String) (now : DT) : DB :=
  match getJob db job_id with
  | .error _ => markJobFailed db job_id now
  | .ok none => db
  | .ok (some job) =>
    if ¬ truthyStr job.zip_file_path then markJobFailed db job_id now
    else
      match job.zip_file_path with
      | none => markJobFailed db job_id now
      | some zp =>
        if ¬ env.fileExists zp then markJobFailed db job_id now
        else if ¬ env.isFile zp then markJobFailed db job_id now
        else if truthyStr job.container_id ∧ (env.inspect job_id).isSome then
          if env.startOk then updateJobStatus db job_id "running" (some now) none
          else markJobFailed db job_id now
        else
          match env.createResult with
          | none => markJobFailed db job_id now
          | some cid =>
            if env.startOk then
              updateJobStatus db job_id "running" (some now) (some cid)
            else markJobFailed db job_id now

/-- Embeds `JobController._reconcile_job`: one reconciliation pass's action for a
single job, given the job from the `list_jobs` snapshot and the container
from the `list_ci_containers` map (keyed by decoded job id). -/
def reconcileJob (env : Env) (db : DB) (job : Job) (container : Option ContainerInfo)
    (now : DT) : DB :=
  if job.status = "queued" then
    match container with
    | none => if truthyStr job.zip_file_path then startJob env db job.id now else db
    | some _ => db        -- cleanup_container: runtime-side only, job left queued
  else if job.status = "running" then
    match container with
    | none => markJobFailed db job.id now
    | some c =>
      if c.status = "exited" then finalizeJob db job.id c now
      else if c.status = "running" then db          -- _stream_logs_to_db is a no-op
      else if c.status = "dead" ∨ c.status = "removing" then markJobFailed db job.id now
      else db                                        -- created/paused/restarting
  else db                  -- terminal states: temp-dir cleanup only, no DB write

/-! ## Container naming (`ci_controller/container_manager.py`)

Python strings are modelled as `List Char`; `str.startswith` is
`List.isPrefixOf` and the slice `name[len(prefix):]` is `List.drop`.
Names handed to `_extract_job_id` come from splitting `docker ps` output
on newlines, so they contain no `'\n'` and the regex anchors `^...$`
mean exact match. -/

/-- One character of the regex class `[0-9a-f]`. -/
def isHexLower (c : Char) : Bool := c.isDigit || ('a' ≤ c && c ≤ 'f')

/-- The regex `^[0-9a-f]{8}-[0-9a-f]{4}-[0-9a-f]{4}-[0-9a-f]{4}-[0-9a-f]{12}$`
from `ContainerManager._extract_job_id`. -/
def isUUIDChars (cs : List Char) : Bool :=
  cs.length = 36 &&
  (List.range 36).all fun i =>
    if i = 8 ∨ i = 13 ∨ i = 18 ∨ i = 23 then cs.getD i ' ' = '-'
    else isHexLower (cs.getD i ' ')

/-- Embeds `ContainerManager._get_container_name`: `f"{prefix}{job_id}"`. -/
def getContainerName (pfx job_id : List Char) : List Char := pfx ++ job_id

/-- Embeds `ContainerManager._extract_job_id`: strip the configured prefix and
require the remainder to be a lowercase 8-4-4-4-12 UUID. -/
def extractJobId (pfx name : List Char) : Option (List Char) :=
  if pfx.isPrefixOf name then
    let candidate := name.drop pfx.length
    if isUUIDChars candidate then some candidate else none
  else none

/-- Embeds `ContainerManager.list_ci_containers`: for each line of `docker ps`
output, skip blanks, decode the job id, and inspect; only inspectable
containers whose name decodes are returned (in input order). -/
def listCIContainers (pfx : List Char) (names : List (List Char))
    (inspect : List Char → Option ContainerInfo) : List ContainerInfo :=
  names.filterMap fun name =>
    if name = [] then none
    else (extractJobId pfx name).bind inspect

/-! ## Controller entry point (`ci_controller/__main__.py`) -/

/-- Embeds `get_python_base_image`: CLI flag first, then `CI_PYTHON_BASE_IMAGE`,
then the default. -/
def getPythonBaseImage (cliArg envVar : Option String) : String :=
  match cliArg with
  | some v => v
  | none => envVar.getD "python:3.12-slim"

/-- Embeds `ContainerManager.__init__(self, container_name_prefix: str = "")`:
the only state it sets is the hard-coded image and the prefix
(`self.image = "python:3.12-slim"`). -/
structure ContainerManager where
  image : String
  container_name_prefix : String
deriving DecidableEq, Repr

/-- Constructing a `ContainerManager`, as `__init__` does. -/
def mkContainerManager ( container_name_prefix : String) : ContainerManager :=
  { image := "python:3.12-slim", container_name_prefix := container_name_prefix }

/-- The keyword parameters accepted by `ContainerManager.__init__`
(besides `self`), read off its signature. -/
def containerManagerInitKeywords : List String := ["container_name_prefix"]

/-- The keyword arguments `run_controller` passes when it constructs the
`ContainerManager`
(`ContainerManager(container_name_prefix=..., python_base_image=...)`).
A keyword not in the callee's parameter list makes Python raise
`TypeError` at the call. -/
def runControllerContainerManagerKwargs : List String :=
  ["container_name_prefix", "python_base_image"]

/-! ## Server endpoints (`ci_server/app.py`) -/

/-- Embeds `Job.to_summary_dict()` from `ci_common/models.py`: the wire schema,
timestamps rendered `isoformat() + "Z"`. -/
structure JobSummary where
  job_id : String
  status : String
  success : Option Bool
  start_time : Option String
  end_time : Option String
deriving DecidableEq, Repr

/-- Embeds `Job.to_summary_dict`. -/
def Job.toSummary (j : Job) : JobSummary :=
  { job_id := j.id, status := j.status, success := j.success,
    start_time := j.start_time.map (fun t => isoformat t ++ "Z"),
    end_time := j.end_time.map (fun t => isoformat t ++ "Z") }

/-- Embeds `GET /jobs/{job_id}` (`get_job_status`): load the job (a repository
error becomes a 500 via FastAPI's exception handling), `404` when absent,
`403` when `job.user_id != user.id`, else the summary. -/
def getJobStatusEndpoint (db : DB) (userId job_id : String) :
    Except Nat JobSummary :=
  match getJob db job_id with
  | .error _ => .error 500
  | .ok none => .error 404
  | .ok (some j) =>
    if j.user_id ≠ some userId then .error 403 else .ok j.toSummary

/-- The guard portion of `GET /jobs/{job_id}/stream` (`stream_job_logs`):
identical 404-then-403 gate; on success the endpoint returns the SSE
stream produced by `streamJobEvents` below. -/
def streamJobLogsGate (db : DB) (userId job_id : String) : Except Nat Unit :=
  match getJob db job_id with
  | .error _ => .error 500
  | .ok none => .error 404
  | .ok (some j) =>
    if j.user_id ≠ some userId then .error 403 else .ok ()

/-! ## Authentication (`ci_server/auth.py`)

`get_current_user_with_repo` is modelled from the hashed credential on:
`hash_api_key` is SHA-256, an external injective function outside the
model.  The identity tables are their own small store. -/

/-- A `ci_common.models.User` as the repository returns it. -/
structure UserR where
  id : String
  name : String
  email : String
  is_active : Bool := true
deriving DecidableEq, Repr

/-- A `ci_common.models.APIKey` as the repository returns it. -/
structure APIKeyR where
  id : String
  user_id : String
  key_hash : String
  name : Option String := none
  last_used_at : Option DT := none
  is_active : Bool := true
deriving DecidableEq, Repr

/-- The identity tables (`users`, `api_keys`). -/
structure AuthDB where
  users : List UserR := []
  api_keys : List APIKeyR := []
deriving DecidableEq, Repr

/-- Embeds `SQLiteJobRepository.get_api_key_by_hash`. -/
def getApiKeyByHash (adb : AuthDB) (key_hash : String) : Option APIKeyR :=
  adb.api_keys.find? fun k => k.key_hash = key_hash

/-- Embeds `SQLiteJobRepository.get_user`. -/
def getUser (adb : AuthDB) (user_id : String) : Option UserR :=
  adb.users.find? fun u => u.id = user_id

/-- Embeds `SQLiteJobRepository.update_api_key_last_used`. -/
def updateApiKeyLastUsed (adb : AuthDB) (key_id : String) (ts : DT) : AuthDB :=
  { adb with
    api_keys := adb.api_keys.map fun k =>
      if k.id = key_id then { k with last_used_at := some ts } else k }

/-- Embeds `get_current_user_with_repo`: look the key up by hash; a missing or
revoked key is `401 "Invalid or revoked API key"`; a missing or inactive
owning user is `401 "User not found or inactive"`; on success bump
`last_used_at` and return the user. -/
def getCurrentUser (adb : AuthDB) (key_hash : String) (now : DT) :
    Except (Nat × String) (UserR × AuthDB) :=
  match getApiKeyByHash adb key_hash with
  | none => .error (401, "Invalid or revoked API key")
  | some k =>
    if ¬ k.is_active then .error (401, "Invalid or revoked API key")
    else
      match getUser adb k.user_id with
      | none => .error (401, "User not found or inactive")
      | some u =>
        if ¬ u.is_active then .error (401, "User not found or inactive")
        else .ok (u, updateApiKeyLastUsed adb k.id now)

/-- Embeds `POST /submit-async` (`submit_job_async` + `create_job_from_upload`):
authentication happens in the dependency; the handler stashes the upload
and inserts `Job(status="queued", zip_file_path, user_id=user.id)`.
An authentication failure is the HTTP response status of the request. -/
def submitJobAsync (adb : AuthDB) (db : DB) (key_hash : String) (now : DT)
    (job_id zip_file_path : String) : Except (Nat × String) (AuthDB × DB × String) :=
  match getCurrentUser adb key_hash now with
  | .error e => .error e
  | .ok (u, adb') =>
    match createJob db { id := job_id, status := "queued",
                         zip_file_path := some zip_file_path,
                         user_id := some u.id } with
    | .error _ => .error (500, "Internal Server Error")
    | .ok db' => .ok (adb', db', job_id)

/-! ## SSE stream generator (`ci_server/app.py`, `stream_job_events`)

The generator re-reads the job across its wait loops; `reads k` is the
result of its `k`-th `repo.get_job` call (already decoded — a read that
raises aborts the HTTP stream and is outside this model).  The two wait
loops poll every 0.5 s for 30 s and every 0.1 s for 15 s, i.e. 60 and
150 re-reads.  `histLogs` is `stream_logs(follow=False)` (`none` models
the swallowed exception for a vanished container); `liveLogs` is
`stream_logs(follow=True)` (`.error e` models an exception with text
`e`).  Embedded with `request=None`, as `stream_job_logs` passes it. -/

/-- An SSE event as emitted on the wire (`{type:"log"|"complete"|"job_id"}`). -/
inductive SSEEvent where
  | log (data : String)
  | complete (success : Bool)
  | jobId (id : String)
deriving DecidableEq, Repr

/-- The wait-for-start loop: re-read while `status == "queued"`, up to
`fuel` re-reads; returns the next read index and the last job seen
(`none` when a re-read finds the job deleted). -/
def waitForStart (reads : Nat → Option Job) :
    Nat → Nat → Job → Nat × Option Job
  | fuel, k, j =>
    if j.status = "queued" then
      match fuel with
      | 0 => (k, some j)
      | fuel + 1 =>
        match reads k with
        | none => (k + 1, none)
        | some j' => waitForStart reads fuel (k + 1) j'
    else (k, some j)

/-- The finalization-wait loop: re-read while the job exists with
`success` still null, up to `fuel` re-reads; returns the last read. -/
def finalWait (reads : Nat → Option Job) :
    Nat → Nat → Option Job → Option Job
  | fuel, k, fj =>
    match fj with
    | none => none
    | some j =>
      if j.success = none then
        match fuel with
        | 0 => some j
        | fuel + 1 => finalWait reads fuel (k + 1) (reads k)
      else some j

/-- Embeds `stream_job_events`: the full sequence of SSE events the generator
yields for one client. -/
def streamJobEvents (reads : Nat → Option Job) (fromBeginning : Bool)
    (histLogs : String → Option (List String))
    (liveLogs : String → Except String (List String)) : List SSEEvent :=
  match reads 0 with
  | none => [.log "Job not found.\n", .complete false]
  | some j0 =>
    match waitForStart reads 60 1 j0 with
    | (_, none) => [.log "Job disappeared.\n", .complete false]
    | (k, some j) =>
      if j.status = "completed" ∨ j.status = "failed" ∨ j.status = "cancelled" then
        if ¬ fromBeginning then
          [.log "Job already completed.\n", .complete (j.success.getD false)]
        else
          (match j.container_id with
           | none => []
           | some cid =>
             match histLogs cid with
             | none => []          -- "Container might be gone, that's ok"
             | some lines => lines.map .log)
          ++ [.complete (j.success.getD false)]
      else
        let liveEvents :=
          if j.status = "running" ∧ truthyStr j.container_id then
            match j.container_id with
            | none => []
            | some cid =>
              match liveLogs cid with
              | .ok lines => lines.map SSEEvent.log
              | .error e => [.log ("Error streaming logs: " ++ e ++ "\n")]
          else []
        liveEvents ++
          match finalWait reads 150 (k + 1) (reads k) with
          | some j' => [.complete (j'.success.getD false)]
          | none => [.complete false]

/-! ## Claims -/

/-- Claim C1.  The claim says a running job whose container is absent
(or dead/removing, or whose start fails terminally) is left in status
`"failed"` with `success=false` and `end_time` set after one
reconciliation pass.  The code disagrees on the status: `_mark_job_failed`
first writes `"failed"` via `update_job_status` and then calls
`complete_job`, whose SQL hard-codes `status = "completed"`, so the
job the pass leaves behind has status `"completed"` (with `success=0`
and `end_time` set as claimed).  This theorem evaluates the embedded
reconciliation step at a running job with no container. -/
theorem claim_C1 :
    (reconcileJob
      { fileExists := fun _ => false, isFile := fun _ => false,
        inspect := fun _ => none, createResult := none, startOk := false }
      { jobs := [{ id := "11111111-1111-1111-1111-111111111111",
                   status := "running", container_id := some "c0",
                   zip_file_path := some "/tmp/a.zip", user_id := some "u1" }] }
      { id := "11111111-1111-1111-1111-111111111111", status := "running",
        container_id := some "c0", zip_file_path := some "/tmp/a.zip",
        user_id := some "u1" }
      none ⟨2026, 1, 2, 3, 4, 5, 0⟩).jobs.map
        (fun r => (r.status, r.success, r.end_time))
    = [("completed", some 0, some "2026-01-02T03:04:05")] := by decide

/-- Claim C2.  The claim says a queued job with no sandbox whose
`archive_path` is unset, or names a file that is absent on disk, moves to
status `"failed"` in one reconciliation pass.  The code does neither:
(a) when `zip_file_path` names a missing file, `_start_job` routes
through `_mark_job_failed`, whose final `complete_job` write leaves
status `"completed"`, not `"failed"`; (b) when `zip_file_path` is unset,
`_reconcile_job`'s `if job.zip_file_path:` guard has no else branch, so
the pass writes nothing and the job stays `"queued"` forever.  Both are
evaluated here. -/
theorem claim_C2 :
    ((reconcileJob
       { fileExists := fun _ => false, isFile := fun _ => false,
         inspect := fun _ => none, createResult := none, startOk := false }
       { jobs := [{ id := "22222222-2222-2222-2222-222222222222",
                    status := "queued",
                    zip_file_path := some "/tmp/gone.zip", user_id := some "u1" }] }
       { id := "22222222-2222-2222-2222-222222222222", status := "queued",
         zip_file_path := some "/tmp/gone.zip", user_id := some "u1" }
       none ⟨2026, 1, 2, 3, 4, 5, 0⟩).jobs.map
         (fun r => (r.status, r.success, r.end_time))
     = [("completed", some 0, some "2026-01-02T03:04:05")]) ∧
    (reconcileJob
       { fileExists := fun _ => true, isFile := fun _ => true,
         inspect := fun _ => none, createResult := some "c9", startOk := true }
       { jobs := [{ id := "33333333-3333-3333-3333-333333333333",
                    status := "queued", user_id := some "u1" }] }
       { id := "33333333-3333-3333-3333-333333333333", status := "queued",
         user_id := some "u1" }
       none ⟨2026, 1, 2, 3, 4, 5, 0⟩
     = { jobs := [{ id := "33333333-3333-3333-3333-333333333333",
                    status := "queued", user_id := some "u1" }] }) := by
  constructor <;> decide

/-- Claim C3.  The claim says `CI_PYTHON_BASE_IMAGE` parameterizes the
`ContainerManager` the controller entry point constructs.  In the code,
`get_python_base_image` does read the variable (default
`python:3.12-slim`), but `run_controller` then passes it as keyword
argument `python_base_image` to `ContainerManager.__init__`, whose only
keyword parameter is `container_name_prefix` — in Python an unexpected
keyword raises `TypeError` at the call, so the entry point cannot even
construct the manager — and `__init__` hard-codes
`self.image = "python:3.12-slim"` regardless. -/
theorem claim_C3 :
    getPythonBaseImage none (some "python:3.11-slim") = "python:3.11-slim" ∧
    getPythonBaseImage none none = "python:3.12-slim" ∧
    (mkContainerManager "").image = "python:3.12-slim" ∧
    (mkContainerManager "ci_test_").image = "python:3.12-slim" ∧
    "python_base_image" ∈ runControllerContainerManagerKwargs ∧
    "python_base_image" ∉ containerManagerInitKeywords := by decide

/-- Claim C4.  For authenticated `GET /jobs/{id}` and
`GET /jobs/{id}/stream`: a missing job yields 404, and an existing job
whose `user_id` differs from the principal's id yields 403 — the
existence check runs first, so absence gives 404 regardless of the
caller. -/
theorem claim_C4 (db : DB) (uid jid : String) :
    (getJob db jid = .ok none →
      getJobStatusEndpoint db uid jid = .error 404 ∧
      streamJobLogsGate db uid jid = .error 404) ∧
    (∀ j, getJob db jid = .ok (some j) → j.user_id ≠ some uid →
      getJobStatusEndpoint db uid jid = .error 403 ∧
      streamJobLogsGate db uid jid = .error 403) := by
  constructor
  · intro h
    constructor <;> simp [getJobStatusEndpoint, streamJobLogsGate, h]
  · intro j hj hownr
    constructor <;> simp [getJobStatusEndpoint, streamJobLogsGate, hj, hownr]

theorem claim_C4_witness :
    (getJobStatusEndpoint
      { jobs := [{ id := "J1", status := "queued", user_id := some "alice" }] }
      "bob" "J1" = .error 403) ∧
    (streamJobLogsGate
      { jobs := [{ id := "J1", status := "queued", user_id := some "alice" }] }
      "bob" "J0" = .error 404) :=
  ⟨((claim_C4 { jobs := [{ id := "J1", status := "queued",
                           user_id := some "alice" }] } "bob" "J1").2
      { id := "J1", status := "queued", user_id := some "alice" }
      rfl (by decide)).1,
   ((claim_C4 { jobs := [{ id := "J1", status := "queued",
                           user_id := some "alice" }] } "bob" "J0").1
      rfl).2⟩

/-- Claim C5, counterexample.  The claim says a submit request with a
revoked key, or a key owned by an inactive user, fails with 403.  The
code raises `HTTPException(status_code=401, ...)` in both branches of
`get_current_user_with_repo`, so the request fails with status 401, not
403 (the repository's unit tests assert 401 for both cases as well). -/
theorem claim_C5_counterexample :
    (submitJobAsync
      { users := [{ id := "u1", name := "A", email := "a@x", is_active := true }],
        api_keys := [{ id := "k1", user_id := "u1", key_hash := "h1",
                       is_active := false }] }
      {} "h1" ⟨2026, 1, 2, 3, 4, 5, 0⟩ "J1" "/tmp/a.zip"
      = .error (401, "Invalid or revoked API key")) ∧
    (submitJobAsync
      { users := [{ id := "u2", name := "B", email := "b@x", is_active := false }],
        api_keys := [{ id := "k2", user_id := "u2", key_hash := "h2",
                       is_active := true }] }
      {} "h2" ⟨2026, 1, 2, 3, 4, 5, 0⟩ "J1" "/tmp/a.zip"
      = .error (401, "User not found or inactive")) ∧
    (401 : Nat) ≠ 403 := by
  refine ⟨rfl, rfl, by decide⟩

/-- Claim C5, amended: a submit request presenting a revoked API key
(`is_active=false`), or a key whose owning user is inactive, fails with
HTTP status 401 (details `"Invalid or revoked API key"` and
`"User not found or inactive"` respectively), not 403. -/
theorem claim_C5 (adb : AuthDB) (db : DB) (h : String) (now : DT)
    (jid zp : String) (k : APIKeyR) (u : UserR) :
    (getApiKeyByHash adb h = some k → k.is_active = false →
      submitJobAsync adb db h now jid zp =
        .error (401, "Invalid or revoked API key")) ∧
    (getApiKeyByHash adb h = some k → k.is_active = true →
      getUser adb k.user_id = some u → u.is_active = false →
      submitJobAsync adb db h now jid zp =
        .error (401, "User not found or inactive")) := by
  constructor
  · intro hk hrev
    simp [submitJobAsync, getCurrentUser, hk, hrev]
  · intro hk hact hu hinact
    simp [submitJobAsync, getCurrentUser, hk, hact, hu, hinact]

theorem claim_C5_witness :
    submitJobAsync
      { users := [{ id := "u1", name := "A", email := "a@x", is_active := true }],
        api_keys := [{ id := "k1", user_id := "u1", key_hash := "h1",
                       is_active := false }] }
      {} "h1" ⟨2026, 1, 2, 3, 4, 5, 0⟩ "J1" "/tmp/a.zip"
      = .error (401, "Invalid or revoked API key") :=
  (claim_C5
    { users := [{ id := "u1", name := "A", email := "a@x", is_active := true }],
      api_keys := [{ id := "k1", user_id := "u1", key_hash := "h1",
                     is_active := false }] }
    {} "h1" ⟨2026, 1, 2, 3, 4, 5, 0⟩ "J1" "/tmp/a.zip"
    { id := "k1", user_id := "u1", key_hash := "h1", is_active := false }
    { id := "u1", name := "A", email := "a@x", is_active := true }).1
    (by decide) (by decide)

/-- Claim C6.  Opening the SSE stream with `from_beginning=false` on a
job already in a terminal state emits exactly one log event (data
`"Job already completed.\n"` as the generator writes it) followed by
exactly one complete event whose success is the stored `success` with
`false` substituted for null, and then the stream ends. -/
theorem claim_C6 (reads : Nat → Option Job)
    (hist : String → Option (List String))
    (live : String → Except String (List String)) (j : Job)
    (h0 : reads 0 = some j)
    (ht : j.status = "completed" ∨ j.status = "failed" ∨ j.status = "cancelled") :
    streamJobEvents reads false hist live =
      [.log "Job already completed.\n", .complete (j.success.getD false)] := by
  have hq : j.status ≠ "queued" := by rcases ht with h | h | h <;> simp [h]
  have hw : waitForStart reads 60 1 j = (1, some j) := by
    rw [waitForStart]
    simp [hq]
  rw [streamJobEvents, h0]
  simp only [hw]
  rcases ht with h | h | h <;> simp [h]

theorem claim_C6_witness :
    streamJobEvents
      (fun _ => some { id := "J1", status := "failed", success := some false })
      false (fun _ => none) (fun _ => .error "gone")
    = [.log "Job already completed.\n", .complete false] :=
  claim_C6 (fun _ => some { id := "J1", status := "failed", success := some false })
    (fun _ => none) (fun _ => .error "gone")
    { id := "J1", status := "failed", success := some false }
    rfl (Or.inr (Or.inl rfl))

/-- Claim C7.  `_extract_job_id` returns a job id exactly when the name
starts with the configured prefix and the remainder after stripping it is
a lowercase 8-4-4-4-12 UUID, in which case the id is that remainder;
hence a name built by `_get_container_name` from a UUID-format job id
round-trips, a name that does not carry the configured prefix (or whose
suffix is not a UUID) decodes to nothing, and such a name contributes no
entry to `list_ci_containers`. -/
theorem claim_C7 (pfx name jid : List Char)
    (inspect : List Char → Option ContainerInfo) (rest : List (List Char)) :
    (extractJobId pfx name = some jid ↔
      pfx.isPrefixOf name = true ∧ isUUIDChars (name.drop pfx.length) = true ∧
      jid = name.drop pfx.length) ∧
    (isUUIDChars jid = true →
      extractJobId pfx (getContainerName pfx jid) = some jid) ∧
    (extractJobId pfx name = none →
      listCIContainers pfx (name :: rest) inspect =
        listCIContainers pfx rest inspect) := by
  refine ⟨?_, ?_, ?_⟩
  · unfold extractJobId
    by_cases hp : pfx.isPrefixOf name
    · by_cases hu : isUUIDChars (name.drop pfx.length) <;>
        simp [hp, hu, eq_comm]
    · simp [hp]
  · intro hu
    unfold extractJobId getContainerName
    have hp : pfx.isPrefixOf (pfx ++ jid) = true := by
      rw [ List.isPrefixOf_iff_prefix]
      exact List.prefix_append pfx jid
    rw [List.drop_left] at *
    simp [hp, hu, List.drop_left]
  · intro hn
    by_cases hz : name = []
    · simp [listCIContainers, hz]
    · simp [listCIContainers, hz, hn]

theorem claim_C7_witness :
    (extractJobId "a_".data
       (getContainerName "a_".data
         "01234567-89ab-cdef-0123-456789abcdef".data) =
       some "01234567-89ab-cdef-0123-456789abcdef".data) ∧
    (listCIContainers "a_".data ["b_xyz".data] (fun _ => none) =
       listCIContainers "a_".data [] (fun _ => none)) :=
  ⟨(claim_C7 "a_".data "b_xyz".data
      "01234567-89ab-cdef-0123-456789abcdef".data (fun _ => none) []).2.1
      (by decide),
   (claim_C7 "a_".data "b_xyz".data
      "01234567-89ab-cdef-0123-456789abcdef".data (fun _ => none) []).2.2
      (by decide)⟩

/-- Maps that fix every element of a list leave it unchanged. -/
theorem map_eq_self_of_fixed {α : Type} (f : α → α) (l : List α)
    (h : ∀ a ∈ l, f a = a) : l.map f = l := by
  induction l with
  | nil => rfl
  | cons a as ih =>
    simp only [List.map_cons, h a (List.mem_cons_self a as),
      ih fun x hx => h x (List.mem_cons_of_mem a hx)]

/-- Claim C8.  `update_job_status` and `complete_job` on a job id with no
row in the `jobs` table: the `UPDATE ... WHERE id = ?` matches nothing,
so neither raises and the store is returned unchanged (the embedded
operations are total functions, matching the code's exception-free SQL
path). -/
theorem claim_C8 (db : DB) (jid status : String) (st : Option DT)
    (cid : Option String) (succ : Bool) (et : DT)
    (h : ∀ r ∈ db.jobs, r.id ≠ jid) :
    updateJobStatus db jid status st cid = db ∧
    completeJob db jid succ et = db := by
  obtain ⟨jobs, events⟩ := db
  constructor
  · simp only [updateJobStatus, DB.mk.injEq, and_true]
    exact map_eq_self_of_fixed _ _ fun r hr => if_neg (h r hr)
  · simp only [completeJob, DB.mk.injEq, and_true]
    exact map_eq_self_of_fixed _ _ fun r hr => if_neg (h r hr)

theorem claim_C8_witness :
    (updateJobStatus
      { jobs := [{ id := "J1", status := "queued" }] } "J2" "running"
      (some ⟨2026, 1, 2, 3, 4, 5, 0⟩) (some "c1")
      = { jobs := [{ id := "J1", status := "queued" }] }) ∧
    (completeJob
      { jobs := [{ id := "J1", status := "queued" }] } "J2" true
      ⟨2026, 1, 2, 3, 4, 5, 0⟩
      = { jobs := [{ id := "J1", status := "queued" }] }) :=
  claim_C8 { jobs := [{ id := "J1", status := "queued" }] } "J2" "running"
    (some ⟨2026, 1, 2, 3, 4, 5, 0⟩) (some "c1") true ⟨2026, 1, 2, 3, 4, 5, 0⟩
    (by decide)

/-- Claim C10.  Frame conditions of the two update operations:
`update_job_status` touches only the `status`, `start_time` and
`container_id` columns of rows matching the id (and `start_time` /
`container_id` only when the corresponding argument is non-null);
`complete_job` touches only `status`, `success` and `end_time`; rows
with a different id — and the `events` table — are untouched by both. -/
theorem claim_C10 (db : DB) (jid status : String) (st : Option DT)
    (cid : Option String) (succ : Bool) (et : DT) :
    ((updateJobStatus db jid status st cid).events = db.events) ∧
    ((completeJob db jid succ et).events = db.events) ∧
    ((updateJobStatus db jid status st cid).jobs.length = db.jobs.length) ∧
    ((completeJob db jid succ et).jobs.length = db.jobs.length) ∧
    (∀ i : Nat, ∀ r, db.jobs[i]? = some r →
      (∃ r2, (updateJobStatus db jid status st cid).jobs[i]? = some r2 ∧
        r2.success = r.success ∧ r2.end_time = r.end_time ∧
        r2.zip_file_path = r.zip_file_path ∧ r2.user_id = r.user_id ∧
        (r.id ≠ jid → r2 = r) ∧
        (st = none → r2.start_time = r.start_time) ∧
        (cid = none → r2.container_id = r.container_id)) ∧
      (∃ r3, (completeJob db jid succ et).jobs[i]? = some r3 ∧
        r3.start_time = r.start_time ∧ r3.container_id = r.container_id ∧
        r3.zip_file_path = r.zip_file_path ∧ r3.user_id = r.user_id ∧
        (r.id ≠ jid → r3 = r))) := by
  refine ⟨rfl, rfl, by simp [updateJobStatus], by simp [completeJob], ?_⟩
  intro i r hr
  constructor
  · have hval : (updateJobStatus db jid status st cid).jobs[i]? =
        some (if r.id = jid then
          { r with
            status := status
            start_time := match st with
              | none => r.start_time
              | some t => some (isoformat t)
            container_id := match cid with
              | none => r.container_id
              | some c => some c }
        else r) := by
      simp only [updateJobStatus, List.getElem?_map, hr]
      rfl
    refine ⟨_, hval, ?_⟩
    by_cases hid : r.id = jid
    · simp only [hid, if_pos rfl]
      refine ⟨rfl, rfl, rfl, rfl, fun hc => absurd rfl hc, ?_, ?_⟩
      · intro hst; subst hst; rfl
      · intro hcid; subst hcid; rfl
    · simp [hid]
  · have hval : (completeJob db jid succ et).jobs[i]? =
        some (if r.id = jid then
          { r with
            status := "completed"
            success := some (if succ then 1 else 0)
            end_time := some (isoformat et) }
        else r) := by
      simp only [completeJob, List.getElem?_map, hr]
      rfl
    refine ⟨_, hval, ?_⟩
    by_cases hid : r.id = jid
    · simp only [hid, if_pos rfl]
      exact ⟨rfl, rfl, rfl, rfl, fun hc => absurd rfl hc⟩
    · simp [hid]

theorem claim_C10_witness :
    ∃ r2, (updateJobStatus
      { jobs := [{ id := "J1", status := "queued",
                   zip_file_path := some "/z", user_id := some "u1" }] }
      "J1" "running" none (some "c1")).jobs[0]? = some r2 ∧
      r2.success = none ∧ r2.end_time = none ∧
      r2.zip_file_path = some "/z" ∧ r2.user_id = some "u1" ∧
      r2.start_time = none :=
  have h := (claim_C10
    { jobs := [{ id := "J1", status := "queued",
                 zip_file_path := some "/z", user_id := some "u1" }] }
    "J1" "running" none (some "c1") true ⟨2026, 1, 2, 3, 4, 5, 0⟩).2.2.2.2
    0 { id := "J1", status := "queued",
        zip_file_path := some "/z", user_id := some "u1" } rfl
  have ⟨r2, h1, h2, h3, h4, h5, _, h7, _⟩ := h.1
  ⟨r2, h1, h2, h3, h4, h5, h7 rfl⟩

/-- Reading back a serialized optional timestamp recovers it when the
stored value was a valid datetime. -/
theorem decodeTime_iso (t : Option DT) (h : ∀ d, t = some d → d.Valid) :
    decodeTime (t.map isoformat) = .ok t := by
  cases t with
  | none => rfl
  | some d =>
    simp only [Option.map_some', decodeTime, parse_iso_roundtrip d (h d rfl)]

/-- SQLite's INTEGER round trip of Python `bool | None`. -/
theorem decodeBool_encodeBool : ∀ s : Option Bool, decodeBool (encodeBool s) = s := by
  decide

/-- Embeds `find?` over an append whose left part has no match finds the
matching singleton on the right. -/
theorem find_append_singleton {l : List JobRow} {jid : String} (row : JobRow)
    (h : ∀ r ∈ l, r.id ≠ jid) (hrow : row.id = jid) :
    (l ++ [row]).find? (fun r => r.id = jid) = some row := by
  induction l with
  | nil => simp [List.find?, hrow]
  | cons a as ih =>
    have ha : (decide (a.id = jid)) = false :=
      decide_eq_false (h a (List.mem_cons_self a as))
    simp only [List.cons_append, List.find?, ha]
    exact ih fun r hr => h r (List.mem_cons_of_mem a hr)

/-- Claim C9.  Round trip: `create_job` then `get_job` returns a job
whose id, status, success, start/end times, container id, archive path
and user id equal the created job's (timestamps pass through ISO-8601
text and back).  Hypotheses: the id is fresh (otherwise the INSERT
raises an `IntegrityError`), timestamps are valid datetimes, and — as
the `events.job_id → jobs.id` foreign key guarantees for a fresh id —
no event row carries the new job's id. -/
theorem claim_C9 (db : DB) (j : Job)
    (hfresh : ∀ r ∈ db.jobs, r.id ≠ j.id)
    (hev : ∀ e ∈ db.events, e.job_id ≠ j.id)
    (hst : ∀ d, j.start_time = some d → d.Valid)
    (het : ∀ d, j.end_time = some d → d.Valid) :
    ∃ db2, createJob db j = .ok db2 ∧
      ∃ j2, getJob db2 j.id = .ok (some j2) ∧
        j2.id = j.id ∧ j2.status = j.status ∧ j2.success = j.success ∧
        j2.start_time = j.start_time ∧ j2.end_time = j.end_time ∧
        j2.container_id = j.container_id ∧
        j2.zip_file_path = j.zip_file_path ∧ j2.user_id = j.user_id := by
  have hany : db.jobs.any (fun r => r.id = j.id) = false := by
    rw [List.any_eq_false]
    intro r hr
    simp [hfresh r hr]
  refine ⟨_, by rw [createJob, if_neg (by simp [hany])], ?_⟩
  have hfind := @find_append_singleton db.jobs j.id
    { id := j.id, status := j.status, success := encodeBool j.success,
      start_time := j.start_time.map isoformat,
      end_time := j.end_time.map isoformat,
      container_id := j.container_id, zip_file_path := j.zip_file_path,
      user_id := j.user_id } hfresh rfl
  have hevents : getEvents
      { db with jobs := db.jobs ++
          [{ id := j.id, status := j.status, success := encodeBool j.success,
             start_time := j.start_time.map isoformat,
             end_time := j.end_time.map isoformat,
             container_id := j.container_id, zip_file_path := j.zip_file_path,
             user_id := j.user_id }] } j.id = .ok [] := by
    have : db.events.filter (fun e => e.job_id = j.id) = [] := by
      rw [List.filter_eq_nil_iff]
      intro e he
      simp [hev e he]
    simp [getEvents, this]
    rfl
  refine ⟨{ id := j.id, status := j.status, events := [],
            success := decodeBool (encodeBool j.success),
            start_time := j.start_time, end_time := j.end_time,
            container_id := j.container_id, zip_file_path := j.zip_file_path,
            user_id := j.user_id },
          ?_, rfl, rfl, decodeBool_encodeBool j.success, rfl, rfl, rfl, rfl, rfl⟩
  simp only [getJob, hfind, decodeTime_iso j.start_time hst,
    decodeTime_iso j.end_time het, hevents]

theorem claim_C9_witness :
    ∃ db2,
      createJob {}
        { id := "J1", status := "completed", success := some true,
          start_time := some ⟨2026, 1, 2, 3, 4, 5, 6⟩,
          end_time := some ⟨2026, 1, 2, 3, 5, 0, 0⟩,
          container_id := some "c1", zip_file_path := some "/z",
          user_id := some "u1" } = .ok db2 ∧
      ∃ j2, getJob db2 "J1" = .ok (some j2) ∧
        j2.id = "J1" ∧ j2.status = "completed" ∧ j2.success = some true ∧
        j2.start_time = some ⟨2026, 1, 2, 3, 4, 5, 6⟩ ∧
        j2.end_time = some ⟨2026, 1, 2, 3, 5, 0, 0⟩ ∧
        j2.container_id = some "c1" ∧
        j2.zip_file_path = some "/z" ∧ j2.user_id = some "u1" :=
  claim_C9 {}
    { id := "J1", status := "completed", success := some true,
      start_time := some ⟨2026, 1, 2, 3, 4, 5, 6⟩,
      end_time := some ⟨2026, 1, 2, 3, 5, 0, 0⟩,
      container_id := some "c1", zip_file_path := some "/z",
      user_id := some "u1" }
    (by simp) (by simp)
    (by intro d hd; cases hd; decide)
    (by intro d hd; cases hd; decide)

end CI
